import Mathlib

/-!
Verification of the event-to-record translation pipeline of
`src/shared/analytics/analytics.background.ts` (zerion-wallet-extension).

The source file registers one handler per domain event on the background
event bus; each handler builds a flat analytics record and forwards it to
the metrics sink (`sendToMetabase`).  We embed the handlers as a single
function `translate : Env → DomainEvent → Except String HandlerResult`,
where `Env` packages the external collaborators the file imports
(the host URL constructor, `globalThis.location.origin`, the
`INTERNAL_ORIGIN` constant, provider resolution, the network registry,
the address-action adapter, the base parameter builder defaults and the
current session user), `HandlerResult.now` is the list of
`sendToMetabase(name, params)` calls performed synchronously, and
`HandlerResult.idle` is the list of calls performed by the callback the
handler hands to `onIdle`, as a function of the environment in force when
that deferred callback eventually runs.  A JavaScript exception escaping
the handler is modelled as `Except.error`.
-/

set_option autoImplicit false

namespace AnalyticsBackground

/-- Scalar-or-null JSON-like values appearing in analytics records.
`vEmptyArr` models the empty-array literal, the only array value the
source file ever writes (the `asset_amount_sent: []` placeholder). -/
inductive Value where
  | vNull
  | vStr (s : String)
  | vBool (b : Bool)
  | vNum (n : Int)
  | vEmptyArr
deriving DecidableEq

/-- A flat analytics record: field name to value, in the order the object
literal writes the keys (later bindings shadow earlier ones, as in a
JavaScript object literal with spreads). -/
abbrev Record := List (String × Value)

/-- One `sendToMetabase(name, params)` call. -/
abbrev Effect := String × Record

/-- JavaScript object-literal field lookup: the LAST binding of a key
wins, mirroring how later properties and spreads shadow earlier ones. -/
def getField : Record → String → Option Value
  | [], _ => none
  | p :: rest, k =>
    match getField rest k with
    | some w => some w
    | none => if p.1 = k then some p.2 else none

/-- Whether a record binds a key at all. -/
def hasKey : Record → String → Bool
  | [], _ => false
  | p :: rest, k => p.1 == k || hasKey rest k

/-- A parsed WHATWG URL, restricted to the two properties the source
reads (`origin` and `pathname`). -/
structure URLParts where
  origin : String
  pathname : String
deriving DecidableEq

/-- `undefined`/missing optional string fields are written into record
literals and normalized to null by the parameter builder. -/
def optToVal : Option String → Value
  | none => Value.vNull
  | some s => Value.vStr s

/-- The network object carried by an `addEthereumChain` event
(`values: [network]`), restricted to the fields the handler reads. -/
structure NetworkConfig where
  external_id : String
  rpc_url_internal : String
  name : String
  native_asset : Option String
  explorer_home_url : String
deriving DecidableEq

/-- The transaction carried by a `transactionSent` event, restricted to
the fields the handler reads.  `gasLimit` is optional because the claim
set considers a transaction lacking it: `transaction.gasLimit.toString()`
then throws in JavaScript. -/
structure Transaction where
  chainId : Nat
  fromAddr : String
  gasLimit : Option Nat
  hash : Option String
deriving DecidableEq

/-- Wallet-name-flag snapshot of the global preferences, as a key-to-flag
map (association list, absent key = flag off). -/
abbrev Preferences := List (String × Bool)

/-- The domain events the file subscribes to, with the payload fields the
handlers read.  `daylightAction.data` is the rest-object after
destructuring `event_name`; `transactionSent.addressAction` and `.quote`
are opaque payloads only ever passed to the external adapter. -/
inductive DomainEvent where
  | dappConnection (origin : String) (address : String)
  | screenView (address : Option String) (pathname : String)
      (previous : Option String) (screenSize : String)
  | daylightAction (event_name : String) (data : Record)
  | transactionSent (transaction : Transaction) (initiator : String)
      (feeValueCommon : Option String) (addressAction : Option String)
      (quote : Option String)
  | messageSigned (message : String) (initiator : String) (address : String)
  | typedDataSigned (typedData : String) (initiator : String) (address : String)
  | addEthereumChain (values : List NetworkConfig) (origin : String)
  | globalPreferencesChange (state : Preferences) (prevState : Preferences)

/-- The external collaborators of `analytics.background.ts`, packaged as
an environment.  `parseURL` models the host `new URL(...)` constructor
(`none` = the constructor throws); `getProvider` models
`getProviderForMetabase(queryWalletProvider(account, address))` with
`none` meaning resolution is impossible (per the spec the caller then
records a null provider); `getChainName` models
`networks.getChainById(id)?.toString()`; `addressActionToAnalytics`
models the external adapter whose result is spread into the
`signed_transaction` record; `baseDefaults` are the process-wide fields
the base parameter builder merges in; `getUserId` models
`account.getUser()?.id` read at record-build time. -/
structure Env where
  locationOrigin : String
  internalOrigin : String
  parseURL : String → Option URLParts
  getProvider : String → Option String
  getChainName : String → Option String
  addressActionToAnalytics : Option String → Option String → Record
  baseDefaults : Record
  getUserId : Option String

/-- Modelled from the spec: `createParams` of `./analytics` (not under
`src/`) merges the caller-supplied fields with process-wide defaults
(app/client identifying metadata, timestamp); caller fields win because a
record lookup takes the last binding. -/
def createBaseParams (env : Env) (fields : Record) : Record :=
  env.baseDefaults ++ fields

/-- The `createParams` wrapper of `analytics.background.ts` (lines
37-40): spreads the caller fields and additionally binds the current
session user id, then delegates to the base builder. -/
def createParams (env : Env) (fields : Record) : Record :=
  createBaseParams env (fields ++ [("user_id", optToVal env.getUserId)])

/-- `ethers.utils.hexValue`: minimal-length lowercase hex encoding with a
`0x` prefix (`0x0` for zero). -/
def hexValue (n : Nat) : String :=
  "0x" ++ String.mk (Nat.toDigits 16 n)

/-- Modelled from the spec: `getWalletNameFlagsChange(state, prevState)`
of `src/background/Wallet/GlobalPreferences` (not under `src/`) diffs the
old and new wallet-name-flag snapshots: a key is newly enabled when its
flag transitions off-to-on and newly disabled when it transitions
on-to-off (an absent key counts as off). -/
def flagOf (p : Preferences) (k : String) : Bool :=
  match p.reverse.find? (fun q => q.1 == k) with
  | some q => q.2
  | none => false

/-- Modelled from the spec: the diff collaborator returns the newly
enabled and newly disabled keys between the two snapshots. -/
def getWalletNameFlagsChange (state prevState : Preferences) :
    List String × List String :=
  let keys := ((state ++ prevState).map Prod.fst).dedup
  (keys.filter (fun k => flagOf state k && !flagOf prevState k),
   keys.filter (fun k => flagOf prevState k && !flagOf state k))

/-- The synchronous sends of a handler plus the sends its `onIdle`
callback performs when it later runs (under the then-current env). -/
structure HandlerResult where
  now : List Effect
  idle : Env → List Effect

/-- A handler that performs all of its sends synchronously. -/
def allNow (effs : List Effect) : HandlerResult :=
  { now := effs, idle := fun _ => [] }

/-- `handleSign` (lines 112-144): suppress internal-origin signatures,
otherwise build one `signed_message` record.  The subtype is a string at
runtime; the `eventToMethod[type] ?? 'unexpected type'` fallback is the
`Option.getD` below. -/
def eventToMethod (t : String) : Option String :=
  if t = "typedDataSigned" then some "_signTypedData"
  else if t = "messageSigned" then some "signMessage"
  else none

/-- The `signed_message` record `handleSign` builds once the initiator
parsed to `u`. -/
def signRecord (env : Env) (type address : String) (u : URLParts) : Record :=
  createBaseParams env
    [("request_name", Value.vStr "signed_message"),
     ("type", Value.vStr ((eventToMethod type).getD "unexpected type")),
     ("wallet_address", Value.vStr address),
     ("address", Value.vStr address),
     ("wallet_provider", optToVal (env.getProvider address)),
     ("context", Value.vStr
       (if env.locationOrigin = u.origin then "Extension" else "External Dapp")),
     ("dapp_domain",
       if env.locationOrigin = u.origin then Value.vNull
       else Value.vStr u.origin)]

def handleSign (env : Env) (type initiator address : String) :
    Except String (List Effect) :=
  if initiator = env.internalOrigin then
    Except.ok []
  else
    match env.parseURL initiator with
    | none => Except.error "TypeError: Invalid URL"
    | some u =>
      Except.ok [("signed_message", signRecord env type address u)]

/-- The `signed_transaction` record the `transactionSent` handler builds
once the initiator parsed to `u` and `gasLimit` was read as `gl`:
`chain` falls back to the raw hex chain id when the network registry has
no (non-empty) match, and the address-action adapter result is spread in
last. -/
def txRecord (env : Env) (transaction : Transaction) (initiator : String)
    (feeValueCommon : Option String) (addressAction : Option String)
    (quote : Option String) (u : URLParts) (gl : Nat) : Record :=
  let chainId := hexValue transaction.chainId
  let chain :=
    match env.getChainName chainId with
    | some s => if s = "" then chainId else s
    | none => chainId
  createBaseParams env
    ([("request_name", Value.vStr "signed_transaction"),
      ("screen_name", Value.vStr
        (if u.origin = initiator then "Transaction Request" else u.pathname)),
      ("wallet_address", Value.vStr transaction.fromAddr),
      ("wallet_provider", optToVal (env.getProvider transaction.fromAddr)),
      ("context", Value.vStr
        (if env.locationOrigin = u.origin then "Extension" else "External Dapp")),
      ("type", Value.vStr "sign"),
      ("dapp_domain",
        if env.locationOrigin = u.origin then Value.vNull
        else Value.vStr u.origin),
      ("chain", Value.vStr chain),
      ("gas", Value.vStr (toString gl)),
      ("hash", optToVal transaction.hash),
      ("asset_amount_sent", Value.vEmptyArr),
      ("gas_price", Value.vNull),
      ("network_fee", Value.vNull),
      ("network_fee_value", optToVal feeValueCommon)]
     ++ env.addressActionToAnalytics addressAction quote)

/-- The event handlers registered by `trackAppEvents`, one branch per
`emitter.on` subscription, in source order of the record fields. -/
def translate (env : Env) : DomainEvent → Except String HandlerResult
  | DomainEvent.dappConnection origin address =>
    Except.ok (allNow [("dapp_connection", createBaseParams env
      [("request_name", Value.vStr "dapp_connection"),
       ("dapp_domain", Value.vStr origin),
       ("wallet_address", Value.vStr address),
       ("wallet_provider", optToVal (env.getProvider address))])])
  | DomainEvent.screenView address pathname previous screenSize =>
    Except.ok (allNow [("screen_view", createBaseParams env
      [("request_name", Value.vStr "screen_view"),
       ("wallet_address", optToVal address),
       ("wallet_provider",
         match address with
         | some a =>
           if a = "" then Value.vNull else optToVal (env.getProvider a)
         | none => Value.vNull),
       ("screen_name", Value.vStr pathname),
       ("previous_screen_name", optToVal previous),
       ("screen_size", Value.vStr screenSize)])])
  | DomainEvent.daylightAction event_name data =>
    Except.ok (allNow [("daylight_action", createBaseParams env
      ([("request_name", Value.vStr "daylight_action"),
        ("wallet_address", (getField data "address").getD Value.vNull),
        ("event_name", Value.vStr event_name)]
       ++ data))])
  | DomainEvent.transactionSent transaction initiator feeValueCommon
      addressAction quote =>
    match env.parseURL initiator with
    | none => Except.error "TypeError: Invalid URL"
    | some u =>
      match transaction.gasLimit with
      | none => Except.error "TypeError: cannot read toString of undefined"
      | some gl =>
        Except.ok (allNow [("signed_transaction",
          txRecord env transaction initiator feeValueCommon addressAction
            quote u gl)])
  | DomainEvent.messageSigned _ initiator address =>
    (handleSign env "messageSigned" initiator address).map allNow
  | DomainEvent.typedDataSigned _ initiator address =>
    (handleSign env "typedDataSigned" initiator address).map allNow
  | DomainEvent.addEthereumChain values origin =>
    match values with
    | [] => Except.error "TypeError: cannot read properties of undefined"
    | network :: _ =>
      Except.ok (allNow [("add_custom_evm", createParams env
        [("request_name", Value.vStr "add_custom_evm"),
         ("source", Value.vStr origin),
         ("network_external_id", Value.vStr network.external_id),
         ("network_rpc_url_internal", Value.vStr network.rpc_url_internal),
         ("network_name", Value.vStr network.name),
         ("network_native_asset_symbol",
           match network.native_asset with
           | some s => if s = "" then Value.vNull else Value.vStr s
           | none => Value.vNull),
         ("network_explorer_home_url", Value.vStr network.explorer_home_url)])])
  | DomainEvent.globalPreferencesChange state prevState =>
    Except.ok
      { now := []
        idle := fun envLater =>
          let change := getWalletNameFlagsChange state prevState
          change.1.map (fun key => ("metamask_mode", createParams envLater
            [("request_name", Value.vStr "metamask_mode"),
             ("enabled", Value.vBool true),
             ("dapp_domain", Value.vStr key)]))
          ++ change.2.map (fun key => ("metamask_mode", createParams envLater
            [("request_name", Value.vStr "metamask_mode"),
             ("enabled", Value.vBool false),
             ("dapp_domain", Value.vStr key)])) }

/-- All sends an event leads to: the synchronous ones followed by the
ones the deferred `onIdle` callback performs when it runs under the
(possibly changed) later environment `envLater`. -/
def emitted (env envLater : Env) (e : DomainEvent) :
    Except String (List Effect) :=
  (translate env e).map (fun r => r.now ++ r.idle envLater)

/-- Number of records delivered for an event, `none` when the handler
throws. -/
def emitCount (env envLater : Env) (e : DomainEvent) : Option Nat :=
  match emitted env envLater e with
  | Except.ok l => some l.length
  | Except.error _ => none

/-- The sends of the deferred `onIdle` callback alone. -/
def idleEffects (env envLater : Env) (e : DomainEvent) : List Effect :=
  match translate env e with
  | Except.ok r => r.idle envLater
  | Except.error _ => []

/-- The synchronous sends alone. -/
def nowEffects (env : Env) (e : DomainEvent) : List Effect :=
  match translate env e with
  | Except.ok r => r.now
  | Except.error _ => []

/-! ### Concrete sample environment and fixtures

Used by the closed witness and counterexample theorems below.  The URL
table plays the host URL constructor on the handful of strings the
fixtures use; unlisted strings fail to parse, as `new URL("::")` throws. -/

def sampleParse (s : String) : Option URLParts :=
  if s = "https://app.dapp.io/swap" then
    some { origin := "https://app.dapp.io", pathname := "/swap" }
  else if s = "https://app.dapp.io" then
    some { origin := "https://app.dapp.io", pathname := "/" }
  else if s = "chrome-extension://wallet/popup" then
    some { origin := "chrome-extension://wallet", pathname := "/popup" }
  else none

def sampleEnv : Env :=
  { locationOrigin := "chrome-extension://wallet"
    internalOrigin := "chrome-extension://wallet"
    parseURL := sampleParse
    getProvider := fun a => if a = "0xabc" then some "Ledger" else none
    getChainName := fun h => if h = "0x1" then some "ethereum" else none
    addressActionToAnalytics := fun _ _ => [("action_type", Value.vStr "send")]
    baseDefaults :=
      [("origin", Value.vStr "chrome-extension://wallet"),
       ("timestamp", Value.vNum 1700000000)]
    getUserId := some "user-1" }

def net1 : NetworkConfig :=
  { external_id := "0x64"
    rpc_url_internal := "https://rpc.one.example"
    name := "NetOne"
    native_asset := some "ONE"
    explorer_home_url := "https://scan.one.example" }

def net2 : NetworkConfig :=
  { external_id := "0x89"
    rpc_url_internal := "https://rpc.two.example"
    name := "NetTwo"
    native_asset := none
    explorer_home_url := "https://scan.two.example" }

def tx1 : Transaction :=
  { chainId := 1
    fromAddr := "0xabc"
    gasLimit := some 21000
    hash := some "0xhash" }

def txNoProv : Transaction :=
  { chainId := 1
    fromAddr := "0xdef"
    gasLimit := some 21000
    hash := some "0xhash" }

def txNoGas : Transaction :=
  { chainId := 1
    fromAddr := "0xabc"
    gasLimit := none
    hash := some "0xhash" }

/-! ### Field-lookup lemmas -/

theorem getField_eq_none_of_hasKey_false (t : Record) (k : String)
    (h : hasKey t k = false) : getField t k = none := by
  induction t with
  | nil => rfl
  | cons p rest ih =>
    simp only [hasKey, Bool.or_eq_false_iff] at h
    simp only [getField, ih h.2]
    have : ¬ p.1 = k := by
      intro hk
      simp [hk] at h
    simp [this]

theorem getField_append (d l : Record) (k : String) :
    getField (d ++ l) k = (getField l k).orElse (fun _ => getField d k) := by
  induction d with
  | nil =>
    cases h : getField l k <;> simp only [List.nil_append, h] <;> rfl
  | cons p d ih =>
    show (match getField (d ++ l) k with
      | some w => some w
      | none => if p.1 = k then some p.2 else none) =
      (getField l k).orElse (fun _ => getField (p :: d) k)
    rw [ih]
    cases h : getField l k <;> rfl

/-- A key bound in the suffix is read from the suffix: the defaults the
base builder prepends can never shadow a caller-supplied field. -/
theorem getField_append_of_some (d l : Record) (k : String) (v : Value)
    (h : getField l k = some v) : getField (d ++ l) k = some v := by
  rw [getField_append, h]
  rfl

/-- A spread suffix that does not bind the key leaves the lookup to the
fields before it. -/
theorem getField_append_of_hasKey_false (l t : Record) (k : String)
    (h : hasKey t k = false) :
    getField (l ++ t) k = getField l k := by
  rw [getField_append, getField_eq_none_of_hasKey_false t k h]
  cases getField l k <;> rfl

/-- Events on which the handlers complete without a JavaScript exception:
the initiator must parse as a URL where `new URL` is called, `gasLimit`
must be present where `.toString()` is called on it, and the
`addEthereumChain` values list must be non-empty (its first element is
destructured and dereferenced). -/
def wellFormed (env : Env) : DomainEvent → Bool
  | DomainEvent.transactionSent tx initiator _ _ _ =>
    (env.parseURL initiator).isSome && tx.gasLimit.isSome
  | DomainEvent.messageSigned _ initiator _ =>
    initiator == env.internalOrigin || (env.parseURL initiator).isSome
  | DomainEvent.typedDataSigned _ initiator _ =>
    initiator == env.internalOrigin || (env.parseURL initiator).isSome
  | DomainEvent.addEthereumChain values _ => !values.isEmpty
  | _ => true

/-- The spreads written after `request_name` in an object literal
(`...data` for `daylightAction`, the address-action adapter result for
`transactionSent`) do not rebind `request_name`. -/
def noShadow (env : Env) : DomainEvent → Bool
  | DomainEvent.daylightAction _ data => !(hasKey data "request_name")
  | DomainEvent.transactionSent _ _ _ aa q =>
    !(hasKey (env.addressActionToAnalytics aa q) "request_name")
  | _ => true

/-- Record names each event is expected to deliver: one fixed name per
variant, except that internally-initiated signatures deliver none, a
`ChainAdded` event delivers one record (built from the first network of
its list), and a `PreferencesChanged` event delivers one `metamask_mode`
record per changed key. -/
def expectedNames (env : Env) : DomainEvent → List String
  | DomainEvent.dappConnection _ _ => ["dapp_connection"]
  | DomainEvent.screenView _ _ _ _ => ["screen_view"]
  | DomainEvent.daylightAction _ _ => ["daylight_action"]
  | DomainEvent.transactionSent _ _ _ _ _ => ["signed_transaction"]
  | DomainEvent.messageSigned _ initiator _ =>
    if initiator = env.internalOrigin then [] else ["signed_message"]
  | DomainEvent.typedDataSigned _ initiator _ =>
    if initiator = env.internalOrigin then [] else ["signed_message"]
  | DomainEvent.addEthereumChain _ _ => ["add_custom_evm"]
  | DomainEvent.globalPreferencesChange state prevState =>
    let change := getWalletNameFlagsChange state prevState
    (change.1 ++ change.2).map (fun _ => "metamask_mode")

/-- The identity-bearing builder binds `user_id` last, so the lookup
always returns the session user captured by the builder, whatever the
caller fields and the process-wide defaults are. -/
theorem getField_createParams_userId (env : Env) (fields : Record) :
    getField (createParams env fields) "user_id"
      = some (optToVal env.getUserId) := by
  unfold createParams createBaseParams
  apply getField_append_of_some
  apply getField_append_of_some
  rfl

/-- Claim C8: the `dappConnection` and `screenView` translators use the
non-identity base builder and never read the session user, so their
entire output is unchanged under any change of the current session
identity. -/
theorem screen_dapp_user_noninterference (env : Env) (u : Option String)
    (o a : String) (addr : Option String) (p : String)
    (prev : Option String) (ss : String) :
    translate { env with getUserId := u } (DomainEvent.dappConnection o a)
      = translate env (DomainEvent.dappConnection o a)
    ∧ translate { env with getUserId := u }
        (DomainEvent.screenView addr p prev ss)
      = translate env (DomainEvent.screenView addr p prev ss) :=
  ⟨rfl, rfl⟩

/-- Claim C7: a `globalPreferencesChange` event fans out, through the
idle-deferred callback, into exactly one `metamask_mode` record per key
the diff collaborator reports as newly enabled or newly disabled; a
newly enabled key yields `enabled = true`, a newly disabled key
`enabled = false`, and every record carries the changed key as
`dapp_domain`. -/
theorem preferences_change_fanout (env envLater : Env)
    (state prevState : Preferences) :
    (idleEffects env envLater
        (DomainEvent.globalPreferencesChange state prevState)).length
      = (getWalletNameFlagsChange state prevState).1.length
        + (getWalletNameFlagsChange state prevState).2.length
    ∧ (idleEffects env envLater
        (DomainEvent.globalPreferencesChange state prevState)).map
          (fun eff => (eff.1, getField eff.2 "enabled",
            getField eff.2 "dapp_domain"))
      = (getWalletNameFlagsChange state prevState).1.map
          (fun k => ("metamask_mode", some (Value.vBool true),
            some (Value.vStr k)))
        ++ (getWalletNameFlagsChange state prevState).2.map
          (fun k => ("metamask_mode", some (Value.vBool false),
            some (Value.vStr k))) := by
  have hfield : ∀ (b : Bool) (k : String),
      getField (createParams envLater
        [("request_name", Value.vStr "metamask_mode"),
         ("enabled", Value.vBool b),
         ("dapp_domain", Value.vStr k)]) "enabled" = some (Value.vBool b)
      ∧ getField (createParams envLater
        [("request_name", Value.vStr "metamask_mode"),
         ("enabled", Value.vBool b),
         ("dapp_domain", Value.vStr k)]) "dapp_domain"
          = some (Value.vStr k) := by
    intro b k
    constructor
    · unfold createParams createBaseParams
      apply getField_append_of_some
      rfl
    · unfold createParams createBaseParams
      apply getField_append_of_some
      rfl
  constructor
  · simp [idleEffects, translate]
  · simp only [idleEffects, translate, List.map_append, List.map_map]
    congr 1 <;>
      · apply List.map_congr_left
        intro k _
        simp [Function.comp, (hfield _ k).1, (hfield _ k).2]

/-- Claim C10: the `metamask_mode` records are built by the
identity-bearing `createParams` wrapper inside the `onIdle` callback, so
each carries a `user_id` equal to the session identity in force when the
deferred callback runs, and the identity in force when the preference
change fired is irrelevant (the handler also sends nothing
synchronously). -/
theorem metamask_mode_user_id_at_idle_time (env envLater : Env)
    (u : Option String) (state prevState : Preferences) :
    (idleEffects env envLater
        (DomainEvent.globalPreferencesChange state prevState)).map
          (fun eff => getField eff.2 "user_id")
      = List.replicate
          (idleEffects env envLater
            (DomainEvent.globalPreferencesChange state prevState)).length
          (some (optToVal envLater.getUserId))
    ∧ idleEffects { env with getUserId := u } envLater
        (DomainEvent.globalPreferencesChange state prevState)
      = idleEffects env envLater
        (DomainEvent.globalPreferencesChange state prevState)
    ∧ nowEffects env (DomainEvent.globalPreferencesChange state prevState)
      = [] := by
  refine ⟨?_, rfl, rfl⟩
  simp only [idleEffects, translate, List.map_append, List.map_map,
    List.length_append, List.length_map]
  rw [List.replicate_add]
  congr 1 <;>
    · rw [List.map_eq_replicate_iff]
      intro k _
      exact getField_createParams_userId envLater _

/-- Claim C2 counterexample: a `messageSigned` event whose initiator
differs from the reserved internal origin but is not a parseable URL
makes `handleSign` throw in `new URL(initiator)`, so zero records are
emitted where the claim promises exactly one `signed_message` record. -/
theorem sign_nonInternal_unparseable_throws :
    "::" ≠ sampleEnv.internalOrigin
    ∧ emitted sampleEnv sampleEnv
        (DomainEvent.messageSigned "gm" "::" "0xabc")
      = Except.error "TypeError: Invalid URL" :=
  ⟨by decide, rfl⟩

/-- Claim C2 (amended): an internally-initiated `messageSigned` or
`typedDataSigned` event produces no send and no deferred work at all,
while one whose initiator differs from the internal origin AND parses as
a URL produces exactly one `signed_message` record. -/
theorem internal_origin_suppression (env envLater : Env) :
    (∀ msg initiator addr, initiator = env.internalOrigin →
      translate env (DomainEvent.messageSigned msg initiator addr)
        = Except.ok (allNow [])
      ∧ translate env (DomainEvent.typedDataSigned msg initiator addr)
        = Except.ok (allNow []))
    ∧ (∀ msg initiator addr u, initiator ≠ env.internalOrigin →
      env.parseURL initiator = some u →
      (∃ r, emitted env envLater (DomainEvent.messageSigned msg initiator addr)
        = Except.ok [("signed_message", r)])
      ∧ (∃ r, emitted env envLater
          (DomainEvent.typedDataSigned msg initiator addr)
        = Except.ok [("signed_message", r)])) := by
  constructor
  · intro msg initiator addr h
    subst h
    constructor <;> simp [translate, handleSign, allNow, Except.map]
  · intro msg initiator addr u h1 h2
    refine ⟨⟨signRecord env "messageSigned" addr u, ?_⟩,
      ⟨signRecord env "typedDataSigned" addr u, ?_⟩⟩ <;>
      simp [emitted, translate, handleSign, h1, h2, allNow, Except.map]

/-- Claim C2 witness: concrete internally-initiated and dapp-initiated
signing events. -/
theorem internal_origin_suppression_witness :
    ("chrome-extension://wallet" = sampleEnv.internalOrigin
      ∧ translate sampleEnv
          (DomainEvent.messageSigned "gm" "chrome-extension://wallet" "0xabc")
        = Except.ok (allNow [])
      ∧ translate sampleEnv
          (DomainEvent.typedDataSigned "gm" "chrome-extension://wallet" "0xabc")
        = Except.ok (allNow []))
    ∧ ("https://app.dapp.io/swap" ≠ sampleEnv.internalOrigin
      ∧ sampleEnv.parseURL "https://app.dapp.io/swap"
        = some { origin := "https://app.dapp.io", pathname := "/swap" }
      ∧ ((∃ r, emitted sampleEnv sampleEnv
          (DomainEvent.messageSigned "gm" "https://app.dapp.io/swap" "0xabc")
          = Except.ok [("signed_message", r)])
        ∧ (∃ r, emitted sampleEnv sampleEnv
          (DomainEvent.typedDataSigned "gm" "https://app.dapp.io/swap" "0xabc")
          = Except.ok [("signed_message", r)]))) :=
  ⟨⟨rfl,
    (internal_origin_suppression sampleEnv sampleEnv).1
      "gm" "chrome-extension://wallet" "0xabc" rfl⟩,
   ⟨by decide, rfl,
    (internal_origin_suppression sampleEnv sampleEnv).2
      "gm" "https://app.dapp.io/swap" "0xabc"
      { origin := "https://app.dapp.io", pathname := "/swap" }
      (by decide) rfl⟩⟩

/-- Claim C9: the `type` field of a non-suppressed `signed_message`
record goes through the fixed lookup (`typedDataSigned` to
`_signTypedData`, `messageSigned` to `signMessage`), and any other
subtype string fed to `handleSign` yields the literal sentinel
`unexpected type` without raising. -/
theorem sign_type_lookup_sentinel (env envLater : Env) :
    (∀ msg initiator addr u, initiator ≠ env.internalOrigin →
      env.parseURL initiator = some u →
      (∃ r, emitted env envLater (DomainEvent.messageSigned msg initiator addr)
          = Except.ok [("signed_message", r)]
        ∧ getField r "type" = some (Value.vStr "signMessage"))
      ∧ (∃ r, emitted env envLater
            (DomainEvent.typedDataSigned msg initiator addr)
          = Except.ok [("signed_message", r)]
        ∧ getField r "type" = some (Value.vStr "_signTypedData")))
    ∧ (∀ t initiator addr u, t ≠ "typedDataSigned" → t ≠ "messageSigned" →
      initiator ≠ env.internalOrigin → env.parseURL initiator = some u →
      ∃ r, handleSign env t initiator addr
          = Except.ok [("signed_message", r)]
        ∧ getField r "type" = some (Value.vStr "unexpected type")) := by
  constructor
  · intro msg initiator addr u h1 h2
    refine ⟨⟨signRecord env "messageSigned" addr u, ?_, ?_⟩,
      ⟨signRecord env "typedDataSigned" addr u, ?_, ?_⟩⟩
    · simp [emitted, translate, handleSign, h1, h2, allNow, Except.map]
    · unfold signRecord createBaseParams
      apply getField_append_of_some
      rfl
    · simp [emitted, translate, handleSign, h1, h2, allNow, Except.map]
    · unfold signRecord createBaseParams
      apply getField_append_of_some
      rfl
  · intro t initiator addr u ht1 ht2 h1 h2
    have hm : eventToMethod t = none := by
      unfold eventToMethod
      rw [if_neg ht1, if_neg ht2]
    refine ⟨signRecord env t addr u, ?_, ?_⟩
    · simp [handleSign, h1, h2]
    · unfold signRecord createBaseParams
      apply getField_append_of_some
      rw [show ((eventToMethod t).getD "unexpected type") = "unexpected type" by
        rw [hm]; rfl]
      rfl

/-- Claim C9 witness: the two known subtypes and the unknown subtype
`accountSigned` on a concrete dapp-initiated event. -/
theorem sign_type_lookup_sentinel_witness :
    ("https://app.dapp.io/swap" ≠ sampleEnv.internalOrigin
      ∧ sampleEnv.parseURL "https://app.dapp.io/swap"
        = some { origin := "https://app.dapp.io", pathname := "/swap" }
      ∧ "accountSigned" ≠ "typedDataSigned"
      ∧ "accountSigned" ≠ "messageSigned")
    ∧ ((∃ r, emitted sampleEnv sampleEnv
          (DomainEvent.messageSigned "gm" "https://app.dapp.io/swap" "0xabc")
          = Except.ok [("signed_message", r)]
        ∧ getField r "type" = some (Value.vStr "signMessage"))
      ∧ (∃ r, emitted sampleEnv sampleEnv
          (DomainEvent.typedDataSigned "gm" "https://app.dapp.io/swap" "0xabc")
          = Except.ok [("signed_message", r)]
        ∧ getField r "type" = some (Value.vStr "_signTypedData")))
    ∧ (∃ r, handleSign sampleEnv "accountSigned" "https://app.dapp.io/swap" "0xabc"
          = Except.ok [("signed_message", r)]
        ∧ getField r "type" = some (Value.vStr "unexpected type")) :=
  ⟨⟨by decide, rfl, by decide, by decide⟩,
   (sign_type_lookup_sentinel sampleEnv sampleEnv).1
     "gm" "https://app.dapp.io/swap" "0xabc"
     { origin := "https://app.dapp.io", pathname := "/swap" }
     (by decide) rfl,
   (sign_type_lookup_sentinel sampleEnv sampleEnv).2
     "accountSigned" "https://app.dapp.io/swap" "0xabc"
     { origin := "https://app.dapp.io", pathname := "/swap" }
     (by decide) (by decide) (by decide) rfl⟩

/-- Claim C3: both the `signed_transaction` record and the
`signed_message` record classify the initiator origin against
`globalThis.location.origin`: a match yields `context = "Extension"` and
a null `dapp_domain`, a mismatch yields `context = "External Dapp"` and
the origin as `dapp_domain`. -/
theorem context_dapp_domain_classification (env envLater : Env) :
    (∀ tx initiator fee aa q u g,
      env.parseURL initiator = some u →
      tx.gasLimit = some g →
      hasKey (env.addressActionToAnalytics aa q) "context" = false →
      hasKey (env.addressActionToAnalytics aa q) "dapp_domain" = false →
      ∃ r, emitted env envLater
          (DomainEvent.transactionSent tx initiator fee aa q)
        = Except.ok [("signed_transaction", r)]
        ∧ getField r "context" = some (Value.vStr
            (if env.locationOrigin = u.origin then "Extension"
             else "External Dapp"))
        ∧ getField r "dapp_domain" = some
            (if env.locationOrigin = u.origin then Value.vNull
             else Value.vStr u.origin))
    ∧ (∀ msg initiator addr u, initiator ≠ env.internalOrigin →
      env.parseURL initiator = some u →
      (∃ r, emitted env envLater (DomainEvent.messageSigned msg initiator addr)
        = Except.ok [("signed_message", r)]
        ∧ getField r "context" = some (Value.vStr
            (if env.locationOrigin = u.origin then "Extension"
             else "External Dapp"))
        ∧ getField r "dapp_domain" = some
            (if env.locationOrigin = u.origin then Value.vNull
             else Value.vStr u.origin))
      ∧ (∃ r, emitted env envLater
          (DomainEvent.typedDataSigned msg initiator addr)
        = Except.ok [("signed_message", r)]
        ∧ getField r "context" = some (Value.vStr
            (if env.locationOrigin = u.origin then "Extension"
             else "External Dapp"))
        ∧ getField r "dapp_domain" = some
            (if env.locationOrigin = u.origin then Value.vNull
             else Value.vStr u.origin))) := by
  constructor
  · intro tx initiator fee aa q u g hURL hGas hc hd
    refine ⟨txRecord env tx initiator fee aa q u g, ?_, ?_, ?_⟩
    · simp [emitted, translate, hURL, hGas, allNow, Except.map]
    · unfold txRecord createBaseParams
      apply getField_append_of_some
      rw [getField_append_of_hasKey_false _ _ _ hc]
      rfl
    · unfold txRecord createBaseParams
      apply getField_append_of_some
      rw [getField_append_of_hasKey_false _ _ _ hd]
      rfl
  · intro msg initiator addr u h1 h2
    refine ⟨⟨signRecord env "messageSigned" addr u, ?_, ?_, ?_⟩,
      ⟨signRecord env "typedDataSigned" addr u, ?_, ?_, ?_⟩⟩
    · simp [emitted, translate, handleSign, h1, h2, allNow, Except.map]
    · unfold signRecord createBaseParams
      apply getField_append_of_some
      rfl
    · unfold signRecord createBaseParams
      apply getField_append_of_some
      rfl
    · simp [emitted, translate, handleSign, h1, h2, allNow, Except.map]
    · unfold signRecord createBaseParams
      apply getField_append_of_some
      rfl
    · unfold signRecord createBaseParams
      apply getField_append_of_some
      rfl

/-- Claim C3 witness: a concrete dapp-initiated transaction and signing
event under the sample environment. -/
theorem context_dapp_domain_classification_witness :
    (sampleEnv.parseURL "https://app.dapp.io/swap"
        = some { origin := "https://app.dapp.io", pathname := "/swap" }
      ∧ tx1.gasLimit = some 21000
      ∧ hasKey (sampleEnv.addressActionToAnalytics none none) "context" = false
      ∧ hasKey (sampleEnv.addressActionToAnalytics none none) "dapp_domain"
          = false
      ∧ "https://app.dapp.io/swap" ≠ sampleEnv.internalOrigin)
    ∧ (∃ r, emitted sampleEnv sampleEnv
        (DomainEvent.transactionSent tx1 "https://app.dapp.io/swap"
          none none none)
      = Except.ok [("signed_transaction", r)]
      ∧ getField r "context" = some (Value.vStr
          (if sampleEnv.locationOrigin = "https://app.dapp.io" then "Extension"
           else "External Dapp"))
      ∧ getField r "dapp_domain" = some
          (if sampleEnv.locationOrigin = "https://app.dapp.io" then Value.vNull
           else Value.vStr "https://app.dapp.io"))
    ∧ ((∃ r, emitted sampleEnv sampleEnv
        (DomainEvent.messageSigned "gm" "https://app.dapp.io/swap" "0xabc")
      = Except.ok [("signed_message", r)]
      ∧ getField r "context" = some (Value.vStr
          (if sampleEnv.locationOrigin = "https://app.dapp.io" then "Extension"
           else "External Dapp"))
      ∧ getField r "dapp_domain" = some
          (if sampleEnv.locationOrigin = "https://app.dapp.io" then Value.vNull
           else Value.vStr "https://app.dapp.io"))
    ∧ (∃ r, emitted sampleEnv sampleEnv
        (DomainEvent.typedDataSigned "gm" "https://app.dapp.io/swap" "0xabc")
      = Except.ok [("signed_message", r)]
      ∧ getField r "context" = some (Value.vStr
          (if sampleEnv.locationOrigin = "https://app.dapp.io" then "Extension"
           else "External Dapp"))
      ∧ getField r "dapp_domain" = some
          (if sampleEnv.locationOrigin = "https://app.dapp.io" then Value.vNull
           else Value.vStr "https://app.dapp.io"))) :=
  ⟨⟨rfl, rfl, by decide, by decide, by decide⟩,
   (context_dapp_domain_classification sampleEnv sampleEnv).1
     tx1 "https://app.dapp.io/swap" none none none
     { origin := "https://app.dapp.io", pathname := "/swap" } 21000
     rfl rfl (by decide) (by decide),
   (context_dapp_domain_classification sampleEnv sampleEnv).2
     "gm" "https://app.dapp.io/swap" "0xabc"
     { origin := "https://app.dapp.io", pathname := "/swap" }
     (by decide) rfl⟩

/-- Claim C4: the `signed_transaction` record names the screen
`Transaction Request` exactly in the no-path case, i.e. when the parsed
initiator URL origin equals the full initiator string, and otherwise
uses the URL path. -/
theorem transaction_screen_name_rule (env envLater : Env)
    (tx : Transaction) (initiator : String) (fee aa q : Option String)
    (u : URLParts) (g : Nat)
    (hURL : env.parseURL initiator = some u)
    (hGas : tx.gasLimit = some g)
    (hs : hasKey (env.addressActionToAnalytics aa q) "screen_name" = false) :
    ∃ r, emitted env envLater
        (DomainEvent.transactionSent tx initiator fee aa q)
      = Except.ok [("signed_transaction", r)]
      ∧ getField r "screen_name" = some (Value.vStr
          (if u.origin = initiator then "Transaction Request"
           else u.pathname)) := by
  refine ⟨txRecord env tx initiator fee aa q u g, ?_, ?_⟩
  · simp [emitted, translate, hURL, hGas, allNow, Except.map]
  · unfold txRecord createBaseParams
    apply getField_append_of_some
    rw [getField_append_of_hasKey_false _ _ _ hs]
    rfl

/-- Claim C4 witness: a path-bearing initiator (screen name is the path)
and a path-less initiator (screen name is `Transaction Request`),
applied to the rule at two concrete inputs. -/
theorem transaction_screen_name_rule_witness :
    (sampleEnv.parseURL "https://app.dapp.io/swap"
        = some { origin := "https://app.dapp.io", pathname := "/swap" }
      ∧ sampleEnv.parseURL "https://app.dapp.io"
        = some { origin := "https://app.dapp.io", pathname := "/" }
      ∧ tx1.gasLimit = some 21000
      ∧ hasKey (sampleEnv.addressActionToAnalytics none none) "screen_name"
          = false)
    ∧ (∃ r, emitted sampleEnv sampleEnv
        (DomainEvent.transactionSent tx1 "https://app.dapp.io/swap"
          none none none)
      = Except.ok [("signed_transaction", r)]
      ∧ getField r "screen_name" = some (Value.vStr
          (if "https://app.dapp.io" = "https://app.dapp.io/swap"
           then "Transaction Request" else "/swap")))
    ∧ (∃ r, emitted sampleEnv sampleEnv
        (DomainEvent.transactionSent tx1 "https://app.dapp.io"
          none none none)
      = Except.ok [("signed_transaction", r)]
      ∧ getField r "screen_name" = some (Value.vStr
          (if "https://app.dapp.io" = "https://app.dapp.io"
           then "Transaction Request" else "/"))) :=
  ⟨⟨rfl, rfl, rfl, by decide⟩,
   transaction_screen_name_rule sampleEnv sampleEnv tx1
     "https://app.dapp.io/swap" none none none
     { origin := "https://app.dapp.io", pathname := "/swap" } 21000
     rfl rfl (by decide),
   transaction_screen_name_rule sampleEnv sampleEnv tx1
     "https://app.dapp.io" none none none
     { origin := "https://app.dapp.io", pathname := "/" } 21000
     rfl rfl (by decide)⟩

/-- Claim C6: when provider resolution for the relevant address is
impossible (modelled as `Env.getProvider` returning `none`, per the spec
the caller then records an unknown provider), every provider-consuming
translator still delivers its record, with `wallet_provider = null`. -/
theorem provider_failure_null_delivery (env envLater : Env) :
    (∀ o a, env.getProvider a = none →
      ∃ r, emitted env envLater (DomainEvent.dappConnection o a)
        = Except.ok [("dapp_connection", r)]
        ∧ getField r "wallet_provider" = some Value.vNull)
    ∧ (∀ a p prev ss, env.getProvider a = none →
      ∃ r, emitted env envLater (DomainEvent.screenView (some a) p prev ss)
        = Except.ok [("screen_view", r)]
        ∧ getField r "wallet_provider" = some Value.vNull)
    ∧ (∀ tx initiator fee aa q u g,
      env.parseURL initiator = some u →
      tx.gasLimit = some g →
      env.getProvider tx.fromAddr = none →
      hasKey (env.addressActionToAnalytics aa q) "wallet_provider" = false →
      ∃ r, emitted env envLater
          (DomainEvent.transactionSent tx initiator fee aa q)
        = Except.ok [("signed_transaction", r)]
        ∧ getField r "wallet_provider" = some Value.vNull)
    ∧ (∀ msg initiator addr u, initiator ≠ env.internalOrigin →
      env.parseURL initiator = some u →
      env.getProvider addr = none →
      (∃ r, emitted env envLater (DomainEvent.messageSigned msg initiator addr)
        = Except.ok [("signed_message", r)]
        ∧ getField r "wallet_provider" = some Value.vNull)
      ∧ (∃ r, emitted env envLater
          (DomainEvent.typedDataSigned msg initiator addr)
        = Except.ok [("signed_message", r)]
        ∧ getField r "wallet_provider" = some Value.vNull)) := by
  refine ⟨?_, ?_, ?_, ?_⟩
  · intro o a h
    refine ⟨_, rfl, ?_⟩
    apply getField_append_of_some
    rw [h]
    rfl
  · intro a p prev ss h
    refine ⟨_, rfl, ?_⟩
    apply getField_append_of_some
    show getField
      [("request_name", Value.vStr "screen_view"),
       ("wallet_address", optToVal (some a)),
       ("wallet_provider",
         if a = "" then Value.vNull else optToVal (env.getProvider a)),
       ("screen_name", Value.vStr p),
       ("previous_screen_name", optToVal prev),
       ("screen_size", Value.vStr ss)] "wallet_provider"
      = some Value.vNull
    rw [h]
    rw [show (if a = "" then Value.vNull else optToVal none) = Value.vNull by
      rw [show optToVal none = Value.vNull from rfl, ite_self]]
    rfl
  · intro tx initiator fee aa q u g hURL hGas h hwp
    refine ⟨txRecord env tx initiator fee aa q u g, ?_, ?_⟩
    · simp [emitted, translate, hURL, hGas, allNow, Except.map]
    · unfold txRecord createBaseParams
      apply getField_append_of_some
      rw [getField_append_of_hasKey_false _ _ _ hwp, h]
      rfl
  · intro msg initiator addr u h1 h2 h
    refine ⟨⟨signRecord env "messageSigned" addr u, ?_, ?_⟩,
      ⟨signRecord env "typedDataSigned" addr u, ?_, ?_⟩⟩
    · simp [emitted, translate, handleSign, h1, h2, allNow, Except.map]
    · unfold signRecord createBaseParams
      apply getField_append_of_some
      rw [h]
      rfl
    · simp [emitted, translate, handleSign, h1, h2, allNow, Except.map]
    · unfold signRecord createBaseParams
      apply getField_append_of_some
      rw [h]
      rfl

/-- Claim C6 witness: the sample environment resolves no provider for
the address `0xdef`, yet all four translator families deliver their
record with a null `wallet_provider`. -/
theorem provider_failure_null_delivery_witness :
    (sampleEnv.getProvider "0xdef" = none
      ∧ sampleEnv.parseURL "https://app.dapp.io/swap"
        = some { origin := "https://app.dapp.io", pathname := "/swap" }
      ∧ txNoProv.gasLimit = some 21000
      ∧ hasKey (sampleEnv.addressActionToAnalytics none none)
          "wallet_provider" = false
      ∧ "https://app.dapp.io/swap" ≠ sampleEnv.internalOrigin)
    ∧ (∃ r, emitted sampleEnv sampleEnv
        (DomainEvent.dappConnection "https://app.dapp.io" "0xdef")
      = Except.ok [("dapp_connection", r)]
      ∧ getField r "wallet_provider" = some Value.vNull)
    ∧ (∃ r, emitted sampleEnv sampleEnv
        (DomainEvent.screenView (some "0xdef") "/overview" none "1440x900")
      = Except.ok [("screen_view", r)]
      ∧ getField r "wallet_provider" = some Value.vNull)
    ∧ (∃ r, emitted sampleEnv sampleEnv
        (DomainEvent.transactionSent txNoProv "https://app.dapp.io/swap"
          none none none)
      = Except.ok [("signed_transaction", r)]
      ∧ getField r "wallet_provider" = some Value.vNull)
    ∧ ((∃ r, emitted sampleEnv sampleEnv
        (DomainEvent.messageSigned "gm" "https://app.dapp.io/swap" "0xdef")
      = Except.ok [("signed_message", r)]
      ∧ getField r "wallet_provider" = some Value.vNull)
    ∧ (∃ r, emitted sampleEnv sampleEnv
        (DomainEvent.typedDataSigned "gm" "https://app.dapp.io/swap" "0xdef")
      = Except.ok [("signed_message", r)]
      ∧ getField r "wallet_provider" = some Value.vNull)) :=
  ⟨⟨rfl, rfl, rfl, by decide, by decide⟩,
   (provider_failure_null_delivery sampleEnv sampleEnv).1
     "https://app.dapp.io" "0xdef" rfl,
   (provider_failure_null_delivery sampleEnv sampleEnv).2.1
     "0xdef" "/overview" none "1440x900" rfl,
   (provider_failure_null_delivery sampleEnv sampleEnv).2.2.1
     txNoProv "https://app.dapp.io/swap" none none none
     { origin := "https://app.dapp.io", pathname := "/swap" } 21000
     rfl rfl rfl (by decide),
   (provider_failure_null_delivery sampleEnv sampleEnv).2.2.2
     "gm" "https://app.dapp.io/swap" "0xdef"
     { origin := "https://app.dapp.io", pathname := "/swap" }
     (by decide) rfl rfl⟩

/-- Claim C5 counterexample: the translators do abort on malformed
events.  An initiator that is not a parseable URL makes the
`transactionSent` handler throw in `new URL(initiator)`, and a
transaction lacking `gasLimit` makes it throw in
`transaction.gasLimit.toString()` — in both cases no record with
degraded null fields is emitted. -/
theorem translator_throw_counterexample :
    emitted sampleEnv sampleEnv
        (DomainEvent.transactionSent tx1 "not a url" none none none)
      = Except.error "TypeError: Invalid URL"
    ∧ emitted sampleEnv sampleEnv
        (DomainEvent.transactionSent txNoGas "https://app.dapp.io/swap"
          none none none)
      = Except.error "TypeError: cannot read toString of undefined" :=
  ⟨rfl, rfl⟩

/-- Claim C5 (amended): a translator never throws on a well-formed
event — one whose initiator parses as a URL where `new URL` is called,
whose transaction carries a `gasLimit` where it is read, and whose
`addEthereumChain` values list is non-empty; explicitly-guarded optional
fields (missing address, missing native asset, missing hash) degrade to
null rather than aborting. -/
theorem translate_no_throw_wellFormed (env envLater : Env) (e : DomainEvent)
    (h : wellFormed env e = true) :
    (emitted env envLater e).isOk = true := by
  cases e with
  | dappConnection o a => rfl
  | screenView a p prev ss => rfl
  | daylightAction en data => rfl
  | transactionSent tx initiator fee aa q =>
    simp only [wellFormed, Bool.and_eq_true, Option.isSome_iff_exists] at h
    obtain ⟨⟨u, hu⟩, ⟨g, hg⟩⟩ := h
    simp [emitted, translate, hu, hg, allNow, Except.map, Except.isOk, Except.toBool]
  | messageSigned msg initiator addr =>
    by_cases hin : initiator = env.internalOrigin
    · simp [emitted, translate, handleSign, hin, Except.map, Except.isOk, Except.toBool]
    · simp only [wellFormed, Bool.or_eq_true, beq_iff_eq,
        Option.isSome_iff_exists] at h
      rcases h with h | ⟨u, hu⟩
      · exact absurd h hin
      · simp [emitted, translate, handleSign, hin, hu, Except.map, Except.isOk, Except.toBool]
  | typedDataSigned td initiator addr =>
    by_cases hin : initiator = env.internalOrigin
    · simp [emitted, translate, handleSign, hin, Except.map, Except.isOk, Except.toBool]
    · simp only [wellFormed, Bool.or_eq_true, beq_iff_eq,
        Option.isSome_iff_exists] at h
      rcases h with h | ⟨u, hu⟩
      · exact absurd h hin
      · simp [emitted, translate, handleSign, hin, hu, Except.map, Except.isOk, Except.toBool]
  | addEthereumChain values origin =>
    cases values with
    | nil => simp [wellFormed, List.isEmpty] at h
    | cons n rest => rfl
  | globalPreferencesChange s p => rfl

/-- Claim C5 witness: a well-formed transaction event is delivered. -/
theorem translate_no_throw_wellFormed_witness :
    wellFormed sampleEnv
        (DomainEvent.transactionSent tx1 "https://app.dapp.io/swap"
          none none none) = true
    ∧ (emitted sampleEnv sampleEnv
        (DomainEvent.transactionSent tx1 "https://app.dapp.io/swap"
          none none none)).isOk = true :=
  ⟨by decide,
   translate_no_throw_wellFormed sampleEnv sampleEnv
     (DomainEvent.transactionSent tx1 "https://app.dapp.io/swap"
       none none none) (by decide)⟩

/-- Claim C1 counterexample: the claimed one-record-per-variant rule
fails at each concrete input below.  An `addEthereumChain` event
carrying two newly added networks yields a single `add_custom_evm`
record (the handler destructures only the first element of `values`),
not one per network; an internally-initiated `messageSigned` event
yields zero `signed_message` records, not one; a `messageSigned` event
with a non-internal but unparseable initiator, an `addEthereumChain`
event with an empty values list, and a `transactionSent` event lacking
`gasLimit` all throw and deliver no record at all; and a
`daylightAction` payload whose rest-object rebinds `request_name`
shadows the fixed name in the one record delivered. -/
theorem requestName_claim_counterexample :
    emitCount sampleEnv sampleEnv
        (DomainEvent.addEthereumChain [net1, net2] "https://dapp.io")
      = some 1
    ∧ emitCount sampleEnv sampleEnv
        (DomainEvent.messageSigned "gm" sampleEnv.internalOrigin "0xabc")
      = some 0
    ∧ emitCount sampleEnv sampleEnv
        (DomainEvent.messageSigned "gm" "::::" "0xabc")
      = none
    ∧ emitCount sampleEnv sampleEnv
        (DomainEvent.addEthereumChain [] "https://dapp.io")
      = none
    ∧ emitCount sampleEnv sampleEnv
        (DomainEvent.transactionSent txNoGas "https://app.dapp.io/swap"
          none none none)
      = none
    ∧ (emitted sampleEnv sampleEnv
        (DomainEvent.daylightAction "turn on"
          [("request_name", Value.vStr "spoofed_name")])).map
          (fun l => l.map (fun eff => (eff.1, getField eff.2 "request_name")))
      = Except.ok [("daylight_action", some (Value.vStr "spoofed_name"))] :=
  ⟨rfl, rfl, rfl, rfl, rfl, rfl⟩

/-- Claim C1 (amended): on well-formed events without `request_name`
shadowing, every translator delivers records named exactly by
`expectedNames`: one fixed-name record per variant, except that
internally-initiated signing events deliver none, a `ChainAdded` event
delivers exactly one record built from the first network of its list,
and a `PreferencesChanged` event delivers one `metamask_mode` record per
changed key; every delivered record carries its name as
`request_name`. -/
theorem requestName_per_variant (env envLater : Env) (e : DomainEvent)
    (h1 : wellFormed env e = true) (h2 : noShadow env e = true) :
    ∃ l, emitted env envLater e = Except.ok l
      ∧ l.map Prod.fst = expectedNames env e
      ∧ ∀ eff ∈ l, getField eff.2 "request_name" = some (Value.vStr eff.1) := by
  cases e with
  | dappConnection o a =>
    refine ⟨_, rfl, rfl, ?_⟩
    intro eff heff
    simp only [allNow, List.append_nil, List.mem_singleton] at heff
    subst heff
    apply getField_append_of_some
    rfl
  | screenView a p prev ss =>
    refine ⟨_, rfl, rfl, ?_⟩
    intro eff heff
    simp only [allNow, List.append_nil, List.mem_singleton] at heff
    subst heff
    apply getField_append_of_some
    rfl
  | daylightAction en data =>
    simp only [noShadow, Bool.not_eq_eq_eq_not, Bool.not_true] at h2
    refine ⟨_, rfl, rfl, ?_⟩
    intro eff heff
    simp only [allNow, List.append_nil, List.mem_singleton] at heff
    subst heff
    apply getField_append_of_some
    rw [getField_append_of_hasKey_false _ _ _ h2]
    rfl
  | transactionSent tx initiator fee aa q =>
    simp only [wellFormed, Bool.and_eq_true, Option.isSome_iff_exists] at h1
    obtain ⟨⟨u, hu⟩, ⟨g, hg⟩⟩ := h1
    simp only [noShadow, Bool.not_eq_eq_eq_not, Bool.not_true] at h2
    refine ⟨[("signed_transaction",
      txRecord env tx initiator fee aa q u g)], ?_, rfl, ?_⟩
    · simp [emitted, translate, hu, hg, allNow, Except.map]
    · intro eff heff
      simp only [List.mem_singleton] at heff
      subst heff
      unfold txRecord createBaseParams
      apply getField_append_of_some
      rw [getField_append_of_hasKey_false _ _ _ h2]
      rfl
  | messageSigned msg initiator addr =>
    by_cases hin : initiator = env.internalOrigin
    · refine ⟨[], ?_, ?_, ?_⟩
      · simp [emitted, translate, handleSign, hin, Except.map, allNow]
      · simp [expectedNames, hin]
      · intro eff heff
        simp at heff
    · simp only [wellFormed, Bool.or_eq_true, beq_iff_eq,
        Option.isSome_iff_exists] at h1
      rcases h1 with h1 | ⟨u, hu⟩
      · exact absurd h1 hin
      · refine ⟨[("signed_message", signRecord env "messageSigned" addr u)],
          ?_, ?_, ?_⟩
        · simp [emitted, translate, handleSign, hin, hu, allNow, Except.map]
        · simp [expectedNames, hin]
        · intro eff heff
          simp only [List.mem_singleton] at heff
          subst heff
          apply getField_append_of_some
          rfl
  | typedDataSigned td initiator addr =>
    by_cases hin : initiator = env.internalOrigin
    · refine ⟨[], ?_, ?_, ?_⟩
      · simp [emitted, translate, handleSign, hin, Except.map, allNow]
      · simp [expectedNames, hin]
      · intro eff heff
        simp at heff
    · simp only [wellFormed, Bool.or_eq_true, beq_iff_eq,
        Option.isSome_iff_exists] at h1
      rcases h1 with h1 | ⟨u, hu⟩
      · exact absurd h1 hin
      · refine ⟨[("signed_message", signRecord env "typedDataSigned" addr u)],
          ?_, ?_, ?_⟩
        · simp [emitted, translate, handleSign, hin, hu, allNow, Except.map]
        · simp [expectedNames, hin]
        · intro eff heff
          simp only [List.mem_singleton] at heff
          subst heff
          apply getField_append_of_some
          rfl
  | addEthereumChain values origin =>
    cases values with
    | nil => simp [wellFormed, List.isEmpty] at h1
    | cons n rest =>
      refine ⟨_, rfl, rfl, ?_⟩
      intro eff heff
      simp only [allNow, List.append_nil, List.mem_singleton] at heff
      subst heff
      unfold createParams createBaseParams
      apply getField_append_of_some
      rfl
  | globalPreferencesChange s p =>
    refine ⟨_, rfl, ?_, ?_⟩
    · simp only [translate, List.nil_append, List.map_append, List.map_map,
        expectedNames]
      congr 1
    · intro eff heff
      simp only [translate, List.nil_append, List.mem_append] at heff
      rcases heff with hm | hm <;>
        · obtain ⟨k, _, hk⟩ := List.mem_map.mp hm
          rw [← hk]
          unfold createParams createBaseParams
          apply getField_append_of_some
          rfl

/-- Claim C1 witness: a well-formed `dappConnection` event delivers its
single fixed-name record. -/
theorem requestName_per_variant_witness :
    wellFormed sampleEnv
        (DomainEvent.dappConnection "https://app.dapp.io" "0xabc") = true
    ∧ noShadow sampleEnv
        (DomainEvent.dappConnection "https://app.dapp.io" "0xabc") = true
    ∧ (∃ l, emitted sampleEnv sampleEnv
        (DomainEvent.dappConnection "https://app.dapp.io" "0xabc")
        = Except.ok l
      ∧ l.map Prod.fst = expectedNames sampleEnv
          (DomainEvent.dappConnection "https://app.dapp.io" "0xabc")
      ∧ ∀ eff ∈ l, getField eff.2 "request_name"
          = some (Value.vStr eff.1)) :=
  ⟨rfl, rfl,
   requestName_per_variant sampleEnv sampleEnv
     (DomainEvent.dappConnection "https://app.dapp.io" "0xabc") rfl rfl⟩

end AnalyticsBackground
